import Mathlib

/-!
Shallow embedding of the `Select` component state machine from
`src/source/components/Select/Select.tsx` (ppfish-components).

The component's state (`SelectState`) holds the search text, the committed
selection (`selectValue`), the committed-for-panel selection
(`selectValueForMultiplePanel`), popup visibility and the keyboard-highlighted
key (`activeKey`).  Handlers are embedded as pure functions
`Props → State → Input → State × List Emit`, where `Emit` records the
callbacks fired (`onChange`, `onSelect`, `onDeselect`, `onVisibleChange`,
`onSearch`).  Rendering, scrolling and focus side effects are presentational
and not modelled.
-/

namespace PpfishSelect

/-- A selection entry `{key, label, title}` (the TS `SelectValue` type; the
same shape is produced for catalog options by `getOptionFromChildren`).
Keys and labels are modelled as strings; `title` may be absent. -/
structure SelectValue where
  key : String
  label : String
  title : Option String
deriving DecidableEq, Repr

/-- A node of the declarative children tree: an `Option` element (with its
`value`/`key`, rendered children as label, `title` and `disabled` props), an
`OptGroup` element, or any other child (ignored by the traversals). -/
inductive SelNode where
  | opt (key : String) (label : String) (title : Option String) (disabled : Bool) : SelNode
  | group (children : List SelNode) : SelNode
  | other : SelNode

/-- The filter used by `getOptionFromChildren`; it is applied to option
children only.  `trueFilter` models the absent-filter calls, `notDisabled`
models `child => !child.props.disabled`. -/
def trueFilter : SelNode → Bool := fun _ => true

/-- `child => !child.props.disabled`, the predicate used wherever the code
builds the non-disabled catalog. -/
def notDisabled : SelNode → Bool
  | SelNode.opt _ _ _ d => !d
  | _ => true

mutual
/-- `Select.getOptionFromChildren` on a single child: an option child is kept
(as `{label, key, title}`) when the filter accepts it; a group child is
recursed into; anything else contributes nothing. -/
def getOptionFromChild (filter : SelNode → Bool) : SelNode → List SelectValue
  | SelNode.opt k l t d => if filter (SelNode.opt k l t d) then [⟨k, l, t⟩] else []
  | SelNode.group cs => getOptionFromChildren filter cs
  | SelNode.other => []

/-- `Select.getOptionFromChildren` over the children list. -/
def getOptionFromChildren (filter : SelNode → Bool) : List SelNode → List SelectValue
  | [] => []
  | c :: cs => getOptionFromChild filter c ++ getOptionFromChildren filter cs
end

/-- The `filterOption` prop: either a boolean or a predicate of the search
text and the child node. -/
inductive FilterOpt where
  | bool (b : Bool) : FilterOpt
  | pred (f : String → SelNode → Bool) : FilterOpt

/-- Selection mode. -/
inductive Mode where
  | single
  | multiple
deriving DecidableEq, Repr

/-- The props the state machine reads (presentational props omitted). -/
structure SelectProps where
  mode : Mode
  labelInValue : Bool
  filterInactiveOption : Bool
  filterOption : FilterOpt
  defaultActiveFirstOption : Bool
  esc : Bool
  children : List SelNode

/-- The component state fields owned by the state machine. -/
structure SelectState where
  searchValue : String
  selectValue : List SelectValue
  selectValueForMultiplePanel : List SelectValue
  popupVisible : Bool
  activeKey : Option String
deriving DecidableEq, Repr

/-- The value shape passed to `onChange` (raw key(s) when `labelInValue` is
false, object(s) when true; scalar in single mode, sequence in multiple). -/
inductive ChangeValue where
  | key (k : String) : ChangeValue
  | keys (ks : List String) : ChangeValue
  | obj (o : SelectValue) : ChangeValue
  | objs (os : List SelectValue) : ChangeValue
deriving DecidableEq, Repr

/-- A fired callback. `changeEmpty` is `onChange()` with no argument. -/
inductive Emit where
  | change (v : ChangeValue) : Emit
  | changeEmpty : Emit
  | select (o : SelectValue) : Emit
  | deselect (o : SelectValue) : Emit
  | visibleChange (b : Bool) : Emit
  | search (s : String) : Emit
deriving DecidableEq, Repr

mutual
/-- `getFilteredChildren` on a single child: an option child is kept when the
`filterOption` flag/predicate accepts it; a group child is cloned with its
children filtered (its `_isShow` display flag is presentational and not
modelled); other children are dropped. -/
def getFilteredChild (fo : FilterOpt) (searchValue : String) : SelNode → List SelNode
  | SelNode.opt k l t d =>
      let flag := match fo with
        | FilterOpt.bool b => b
        | FilterOpt.pred f => f searchValue (SelNode.opt k l t d)
      if flag then [SelNode.opt k l t d] else []
  | SelNode.group cs => [SelNode.group (getFilteredChildrenList fo searchValue cs)]
  | SelNode.other => []

/-- `getFilteredChildren` over the children list. -/
def getFilteredChildrenList (fo : FilterOpt) (searchValue : String) : List SelNode → List SelNode
  | [] => []
  | c :: cs => getFilteredChild fo searchValue c ++ getFilteredChildrenList fo searchValue cs
end

/-- The filtered, non-disabled option list the keyboard handler operates on:
`getOptionFromChildren(getFilteredChildren(children), [], child => !child.props.disabled)`. -/
def filteredOptions (p : SelectProps) (s : SelectState) : List SelectValue :=
  getOptionFromChildren notDisabled (getFilteredChildrenList p.filterOption s.searchValue p.children)

/-- JS `a || b` where `a` is a possibly-absent string and `b` a string:
returns `a` when it is truthy (present and nonempty), else `b`. -/
def jsOrStr (a : Option String) (b : String) : String :=
  match a with
  | some s => if s = "" then b else s
  | none => b

/-- JS `a || b` on two possibly-absent strings. -/
def jsOrOpt (a b : Option String) : Option String :=
  match a with
  | some s => if s = "" then b else some s
  | none => b

/-- An external label-carrying value object `{key, label?, title?}`. -/
structure ExtObj where
  key : String
  label : Option String
  title : Option String
deriving DecidableEq, Repr

/-- External value when `labelInValue` is true: an array of objects, one
object, or anything else (the code returns `[]` for other shapes). -/
inductive LIVValue where
  | arr (os : List ExtObj) : LIVValue
  | obj (o : ExtObj) : LIVValue
  | otherShape : LIVValue
deriving Repr

/-- External value when `labelInValue` is false: a raw scalar key
(string/number), an array of keys, or a nullish value. -/
inductive RawValue where
  | prim (k : String) : RawValue
  | arr (ks : List String) : RawValue
  | nullish : RawValue
deriving Repr

/-- One entry of the `labelInValue` branch of `getValueFromProps`:
`label = obj.label || option.label || obj.key`, `title = obj.title || option.title`,
where `option` is the catalog entry found by key (or `{}`). -/
def resolveLabeled (optionList : List SelectValue) (o : ExtObj) : SelectValue :=
  let found := optionList.find? (fun opt => opt.key == o.key)
  { key := o.key
    label := jsOrStr o.label (jsOrStr (found.map (·.label)) o.key)
    title := jsOrOpt o.title (found.bind (·.title)) }

/-- One entry of the non-`labelInValue` branch of `getValueFromProps`:
`label = option.label || key`, `title = option.title`. -/
def resolveRawKey (optionList : List SelectValue) (k : String) : SelectValue :=
  let found := optionList.find? (fun opt => opt.key == k)
  { key := k
    label := jsOrStr (found.map (·.label)) k
    title := found.bind (·.title) }

/-- `Select.getValueFromProps`, `labelInValue === true` branch (dispatches on
the runtime type of `value`: array, object, else empty). -/
def getValueFromPropsLIV (value : LIVValue) (children : List SelNode) : List SelectValue :=
  let optionList := getOptionFromChildren trueFilter children
  match value with
  | LIVValue.arr os => os.map (resolveLabeled optionList)
  | LIVValue.obj o => [resolveLabeled optionList o]
  | LIVValue.otherShape => []

/-- `Select.getValueFromProps`, `labelInValue === false` branch (a scalar
string/number is first wrapped as `[value]`; a nullish value yields `[]`). -/
def getValueFromPropsRaw (value : RawValue) (children : List SelNode) : List SelectValue :=
  let optionList := getOptionFromChildren trueFilter children
  match value with
  | RawValue.prim k => [resolveRawKey optionList k]
  | RawValue.arr ks => ks.map (resolveRawKey optionList)
  | RawValue.nullish => []

/-- The constructor's initial state for a non-`labelInValue` initial value:
`searchValue = ''`, both selection lists normalized from the value, popup
visibility from the `visible` prop, no active key. -/
def initState (p : SelectProps) (value : RawValue) (visible : Bool) : SelectState :=
  let v := getValueFromPropsRaw value p.children
  { searchValue := ""
    selectValue := v
    selectValueForMultiplePanel := v
    popupVisible := visible
    activeKey := none }

/-- `changeVisibleState`: fires `onVisibleChange`, sets `popupVisible`; on
open, optionally activates the first non-disabled option
(`defaultActiveFirstOption`) and, in single mode with a selection, activates
the selection's key; on close, clears `activeKey`.  Scroll-into-view calls
are presentational and not modelled. -/
def changeVisibleState (p : SelectProps) (s : SelectState) (visible : Bool) :
    SelectState × List Emit :=
  let base : SelectState := { s with popupVisible := visible }
  if visible then
    let options := getOptionFromChildren notDisabled p.children
    let s1 := if p.defaultActiveFirstOption then
        { base with activeKey := options.head?.map (·.key) }
      else base
    let s2 := if p.mode = Mode.single ∧ s.selectValue ≠ [] then
        { s1 with activeKey := s.selectValue.head?.map (·.key) }
      else s1
    (s2, [Emit.visibleChange visible])
  else
    ({ base with activeKey := none }, [Emit.visibleChange visible])

/-- `visibleChangeFromTrigger`: on close in multiple mode, first restores
`selectValue` from `selectValueForMultiplePanel`, then delegates to
`changeVisibleState`. -/
def visibleChangeFromTrigger (p : SelectProps) (s : SelectState) (visible : Bool) :
    SelectState × List Emit :=
  let s1 := if ¬visible ∧ p.mode = Mode.multiple then
      { s with selectValue := s.selectValueForMultiplePanel }
    else s
  changeVisibleState p s1 visible

/-- `updateSearchValue`: fires `onSearch` and stores the new search text. -/
def updateSearchValue (s : SelectState) (text : String) : SelectState × List Emit :=
  ({ s with searchValue := text }, [Emit.search text])

/-- `emptySearchValue`: fires `onSearch('')` and clears the search text. -/
def emptySearchValue (s : SelectState) : SelectState × List Emit :=
  ({ s with searchValue := "" }, [Emit.search ""])

/-- `onOptionClick`: single mode replaces the selection, closes the popup and
fires `onChange` when the key changed; multiple mode with `clickLabelClose`
removes from both lists and fires `onDeselect` + `onChange`; multiple mode on
a plain option click toggles membership in `selectValue` and fires
`onSelect`/`onDeselect`. -/
def onOptionClick (p : SelectProps) (s : SelectState) (obj : SelectValue)
    (clickLabelClose : Bool) : SelectState × List Emit :=
  let idx? := s.selectValue.findIdx? (fun sel => sel.key == obj.key)
  let isSelected := idx?.isSome
  match p.mode with
  | Mode.single =>
    let (s1, es) := changeVisibleState p s false
    let s2 := { s1 with selectValue := [obj] }
    let es2 := if isSelected then es
      else es ++ [Emit.change (if p.labelInValue then ChangeValue.obj obj
                               else ChangeValue.key obj.key)]
    (s2, es2)
  | Mode.multiple =>
    if clickLabelClose then
      let pending := s.selectValueForMultiplePanel
      -- JS `findIndex` returns -1 when absent; `slice(0,-1) ++ slice(0)` then
      -- yields `dropLast ++ pending`.
      let changed := match pending.findIdx? (fun sel => sel.key == obj.key) with
        | some i => pending.take i ++ pending.drop (i + 1)
        | none => pending.dropLast ++ pending
      let ev := if p.labelInValue then ChangeValue.objs changed
                else ChangeValue.keys (changed.map (·.key))
      ({ s with selectValue := changed, selectValueForMultiplePanel := changed },
       [Emit.deselect obj, Emit.change ev])
    else
      let changed := match idx? with
        | some i => s.selectValue.take i ++ s.selectValue.drop (i + 1)
        | none => s.selectValue ++ [obj]
      ({ s with selectValue := changed },
       [if isSelected then Emit.deselect obj else Emit.select obj])

/-- `handleCancelSelect` (multiple-mode cancel button): closes the popup and
restores `selectValue` from `selectValueForMultiplePanel`. -/
def handleCancelSelect (p : SelectProps) (s : SelectState) : SelectState × List Emit :=
  let (s1, es) := changeVisibleState p s false
  ({ s1 with selectValue := s.selectValueForMultiplePanel }, es)

/-- `handleConfirmSelect` (multiple-mode confirm button): closes the popup,
copies `selectValue` into `selectValueForMultiplePanel`, and fires `onChange`
with the selection — filtered against the live non-disabled catalog when
`filterInactiveOption` is set. -/
def handleConfirmSelect (p : SelectProps) (s : SelectState) : SelectState × List Emit :=
  let (s1, es) := changeVisibleState p s false
  let s2 := { s1 with selectValueForMultiplePanel := s.selectValue }
  let output := if p.filterInactiveOption then
      s.selectValue.filter (fun item =>
        ((getOptionFromChildren notDisabled p.children).find?
          (fun opt => opt.key == item.key)).isSome)
    else s.selectValue
  let ev := if p.labelInValue then ChangeValue.objs output
            else ChangeValue.keys (output.map (·.key))
  (s2, es ++ [Emit.change ev])

/-- `isSelectAll`: every non-disabled catalog option's key occurs in the
selection (`selectValueForMultiplePanel` when `isMultiplePanel`, additionally
requiring a nonempty catalog via JS `length && every`; else `selectValue`). -/
def isSelectAll (p : SelectProps) (s : SelectState) (isMultiplePanel : Bool) : Bool :=
  let optionList := getOptionFromChildren notDisabled p.children
  if isMultiplePanel then
    !optionList.isEmpty &&
      optionList.all (fun sel =>
        (s.selectValueForMultiplePanel.find? (fun opt => opt.key == sel.key)).isSome)
  else
    optionList.all (fun sel =>
      (s.selectValue.find? (fun opt => opt.key == sel.key)).isSome)

/-- `selectAllOption` (multiple-mode select-all row): clears `selectValue`
when `isSelectAll()`, else sets it to the non-disabled catalog. -/
def selectAllOption (p : SelectProps) (s : SelectState) : SelectState :=
  { s with selectValue :=
      if isSelectAll p s false then []
      else getOptionFromChildren notDisabled p.children }

/-- `emptySelectValue` (single-mode clear row): closes the popup, fires
`onChange()` with no argument, empties `selectValue`. -/
def emptySelectValue (p : SelectProps) (s : SelectState) : SelectState × List Emit :=
  let (s1, es) := changeVisibleState p s false
  ({ s1 with selectValue := [] }, es ++ [Emit.changeEmpty])

/-- A keyboard input, by key code. -/
inductive Key where
  | enter
  | esc
  | up
  | down
  | other
deriving DecidableEq, Repr

/-- `handleKeyboardEvent`: ESC closes (when the `esc` prop allows); ENTER
commits the active option when it is in the filtered non-disabled list and
not already selected (single: replace + close + `onChange`; multiple: append
silently); UP/DOWN move `activeKey` through the filtered non-disabled list
with circular wrap, starting at the first option when `activeKey` is absent
or stale; all three are no-ops on an empty filtered list.  (`findIndex`
followed by indexing is rendered with `find?`/`getElem?`.) -/
def handleKeyboardEvent (p : SelectProps) (s : SelectState) (k : Key) :
    SelectState × List Emit :=
  match k with
  | Key.esc => if p.esc then changeVisibleState p s false else (s, [])
  | Key.other => (s, [])
  | Key.enter =>
    let optionList := filteredOptions p s
    if optionList = [] then (s, [])
    else
      match s.activeKey with
      | none => (s, [])
      | some ak =>
        match optionList.find? (fun opt => opt.key == ak) with
        | none => (s, [])
        | some chosen =>
          if (s.selectValue.find? (fun sel => sel.key == ak)).isSome then (s, [])
          else
            match p.mode with
            | Mode.single =>
              let (s1, es) := changeVisibleState p s false
              let s2 := { s1 with selectValue := [chosen], activeKey := none }
              (s2, es ++ [Emit.change (if p.labelInValue then ChangeValue.obj chosen
                                       else ChangeValue.key chosen.key)])
            | Mode.multiple =>
              ({ s with selectValue := s.selectValue ++ [chosen] }, [])
  | Key.up | Key.down =>
    let optionList := filteredOptions p s
    if optionList = [] then (s, [])
    else
      match s.activeKey with
      | none => ({ s with activeKey := optionList.head?.map (·.key) }, [])
      | some ak =>
        match optionList.findIdx? (fun opt => opt.key == ak) with
        | none => ({ s with activeKey := optionList.head?.map (·.key) }, [])
        | some i =>
          let len := optionList.length
          let nextIndex := if k = Key.up then (if i = 0 then len - 1 else i - 1)
            else (if i + 1 = len then 0 else i + 1)
          ({ s with activeKey := (optionList[nextIndex]?).map (·.key) }, [])

/-! Helper lemmas shared by the claim theorems. -/

/-- JS truthiness bridge: `find?` succeeds exactly when `any` holds. -/
theorem find_isSome_eq_any (l : List α) (q : α → Bool) :
    (l.find? q).isSome = l.any q := by
  induction l with
  | nil => rfl
  | cons x xs ih =>
    rw [List.find?_cons]
    cases hq : q x <;> simp [hq, ih]

/-- The selections whose keys resolve against the live non-disabled option
catalog — the spec's description of the confirm payload under
`filterInactiveOption`. -/
def resolvingSelections (p : SelectProps) (sel : List SelectValue) : List SelectValue :=
  sel.filter (fun item =>
    (getOptionFromChildren notDisabled p.children).any (fun opt => opt.key == item.key))

/-- The `filterInactiveOption` filter in `handleConfirmSelect` computes
exactly the resolving selections. -/
theorem confirm_filter_eq_resolvingSelections (p : SelectProps) (sel : List SelectValue) :
    sel.filter (fun item =>
        ((getOptionFromChildren notDisabled p.children).find?
          (fun opt => opt.key == item.key)).isSome)
      = resolvingSelections p sel := by
  unfold resolvingSelections
  induction sel with
  | nil => rfl
  | cons x xs ih =>
    simp only [List.filter_cons, find_isSome_eq_any, ih]

/-! Concrete fixtures used by witnesses and counterexamples. -/

/-- Two enabled options `a`, `b`. -/
def wChildren : List SelNode :=
  [SelNode.opt "a" "A" none false, SelNode.opt "b" "B" none false]

/-- The catalog entry for key `a`. -/
def wOptA : SelectValue := ⟨"a", "A", none⟩

/-- The catalog entry for key `b`. -/
def wOptB : SelectValue := ⟨"b", "B", none⟩

/-- Multiple-mode props over `wChildren`. -/
def wPropsMulti : SelectProps :=
  { mode := Mode.multiple, labelInValue := false, filterInactiveOption := false,
    filterOption := FilterOpt.bool true, defaultActiveFirstOption := false,
    esc := true, children := wChildren }

/-- Single-mode props over `wChildren`. -/
def wPropsSingle : SelectProps :=
  { wPropsMulti with mode := Mode.single }

/-- Multiple-mode props with `filterInactiveOption` enabled. -/
def wPropsFilterInactive : SelectProps :=
  { wPropsMulti with filterInactiveOption := true }

/-- An open-popup state with `a` selected and `b` pending-committed. -/
def wState : SelectState :=
  { searchValue := "", selectValue := [wOptA],
    selectValueForMultiplePanel := [wOptB], popupVisible := true, activeKey := none }

/-- An open-popup state whose selection holds `a` and a stale key `z`. -/
def wStateStale : SelectState :=
  { wState with selectValue := [wOptA, ⟨"z", "z", none⟩] }

/-! Claim theorems. -/

/-- Claim C1: in single mode, an option click commits `[obj]` as the
selection, closes the popup (clearing the active key, leaving search text and
the multiple-panel value untouched), and fires `onChange` — with the raw key
or the full object per `labelInValue` — exactly when the clicked key was not
already selected. -/
theorem c1_single_click_commits (p : SelectProps) (s : SelectState) (obj : SelectValue)
    (h : p.mode = Mode.single) :
    (onOptionClick p s obj false).1 =
      { s with selectValue := [obj], popupVisible := false, activeKey := none }
    ∧ (onOptionClick p s obj false).2 =
        Emit.visibleChange false ::
          (if s.selectValue.any (fun sel => sel.key == obj.key) then []
           else [Emit.change (if p.labelInValue then ChangeValue.obj obj
                              else ChangeValue.key obj.key)])
    ∧ ((∃ v, Emit.change v ∈ (onOptionClick p s obj false).2) ↔
        ∀ sel ∈ s.selectValue, sel.key ≠ obj.key) := by
  refine ⟨?_, ?_, ?_⟩
  · simp [onOptionClick, changeVisibleState, h]
  · simp only [onOptionClick, h, changeVisibleState, List.findIdx?_isSome]
    cases hsel : s.selectValue.any (fun sel => sel.key == obj.key) <;> simp [hsel]
  · simp only [onOptionClick, h, changeVisibleState, List.findIdx?_isSome]
    cases hsel : s.selectValue.any (fun sel => sel.key == obj.key) <;>
      simp_all [List.any_eq_true]

/-- Claim C1 witness: clicking `b` in single mode with `a` selected. -/
theorem c1_witness :
    (onOptionClick wPropsSingle wState wOptB false).1 =
      { wState with selectValue := [wOptB], popupVisible := false, activeKey := none }
    ∧ (onOptionClick wPropsSingle wState wOptB false).2 =
        Emit.visibleChange false ::
          (if wState.selectValue.any (fun sel => sel.key == wOptB.key) then []
           else [Emit.change (if wPropsSingle.labelInValue then ChangeValue.obj wOptB
                              else ChangeValue.key wOptB.key)])
    ∧ ((∃ v, Emit.change v ∈ (onOptionClick wPropsSingle wState wOptB false).2) ↔
        ∀ sel ∈ wState.selectValue, sel.key ≠ wOptB.key) :=
  c1_single_click_commits wPropsSingle wState wOptB rfl

/-- Claim C3: in multiple mode, confirm copies `selectValue` into
`selectValueForMultiplePanel`, closes the popup, and fires `onChange` with
the final value; under `filterInactiveOption` the payload is exactly the
selections whose keys resolve against the non-disabled catalog. -/
theorem c3_confirm_commits (p : SelectProps) (s : SelectState)
    (h : p.mode = Mode.multiple) :
    (handleConfirmSelect p s).1 =
      { s with selectValueForMultiplePanel := s.selectValue,
               popupVisible := false, activeKey := none }
    ∧ (p.filterInactiveOption = true →
        (handleConfirmSelect p s).2 =
          [Emit.visibleChange false,
           Emit.change (if p.labelInValue then
               ChangeValue.objs (resolvingSelections p s.selectValue)
             else ChangeValue.keys ((resolvingSelections p s.selectValue).map (·.key)))])
    ∧ (p.filterInactiveOption = false →
        (handleConfirmSelect p s).2 =
          [Emit.visibleChange false,
           Emit.change (if p.labelInValue then ChangeValue.objs s.selectValue
             else ChangeValue.keys (s.selectValue.map (·.key)))]) := by
  refine ⟨?_, ?_, ?_⟩
  · simp [handleConfirmSelect, changeVisibleState]
  · intro hf
    simp [handleConfirmSelect, changeVisibleState, hf,
      confirm_filter_eq_resolvingSelections]
  · intro hf
    simp [handleConfirmSelect, changeVisibleState, hf]

/-- Claim C3 witness: confirming with a stale selection under
`filterInactiveOption`. -/
theorem c3_witness :
    wPropsFilterInactive.filterInactiveOption = true
    ∧ (handleConfirmSelect wPropsFilterInactive wStateStale).1 =
      { wStateStale with
          selectValueForMultiplePanel := wStateStale.selectValue,
          popupVisible := false, activeKey := none }
    ∧ (handleConfirmSelect wPropsFilterInactive wStateStale).2 =
          [Emit.visibleChange false,
           Emit.change (if wPropsFilterInactive.labelInValue then
               ChangeValue.objs (resolvingSelections wPropsFilterInactive wStateStale.selectValue)
             else ChangeValue.keys
               ((resolvingSelections wPropsFilterInactive wStateStale.selectValue).map (·.key)))] :=
  ⟨rfl, (c3_confirm_commits wPropsFilterInactive wStateStale rfl).1,
    (c3_confirm_commits wPropsFilterInactive wStateStale rfl).2.1 rfl⟩

/-- Claim C4: in multiple mode, both the cancel button and a popup close
reported by the trigger restore `selectValue` from
`selectValueForMultiplePanel`, leave the panel value unchanged, close the
popup, and fire only `onVisibleChange` (no `onChange`). -/
theorem c4_cancel_and_trigger_close_restore (p : SelectProps) (s : SelectState)
    (h : p.mode = Mode.multiple) :
    handleCancelSelect p s =
      ({ s with selectValue := s.selectValueForMultiplePanel,
                popupVisible := false, activeKey := none },
       [Emit.visibleChange false])
    ∧ visibleChangeFromTrigger p s false =
      ({ s with selectValue := s.selectValueForMultiplePanel,
                popupVisible := false, activeKey := none },
       [Emit.visibleChange false]) := by
  constructor
  · simp [handleCancelSelect, changeVisibleState]
  · simp [visibleChangeFromTrigger, changeVisibleState, h]

/-- Claim C4 witness: cancelling and trigger-closing from `wState`. -/
theorem c4_witness :
    handleCancelSelect wPropsMulti wState =
      ({ wState with
          selectValue := wState.selectValueForMultiplePanel,
          popupVisible := false, activeKey := none },
       [Emit.visibleChange false])
    ∧ visibleChangeFromTrigger wPropsMulti wState false =
      ({ wState with
          selectValue := wState.selectValueForMultiplePanel,
          popupVisible := false, activeKey := none },
       [Emit.visibleChange false]) :=
  c4_cancel_and_trigger_close_restore wPropsMulti wState rfl

/-- Claim C9: the select-all toggle clears `selectValue` when every
non-disabled catalog option's key is already selected (vacuously so for an
empty or all-disabled catalog) and otherwise sets it to exactly the
non-disabled catalog; it touches nothing else. -/
theorem c9_select_all_toggle (p : SelectProps) (s : SelectState)
    (h : p.mode = Mode.multiple) :
    ((getOptionFromChildren notDisabled p.children).all
        (fun opt => s.selectValue.any (fun sel => sel.key == opt.key)) = true →
      (selectAllOption p s).selectValue = [])
    ∧ ((getOptionFromChildren notDisabled p.children).all
        (fun opt => s.selectValue.any (fun sel => sel.key == opt.key)) = false →
      (selectAllOption p s).selectValue = getOptionFromChildren notDisabled p.children)
    ∧ (getOptionFromChildren notDisabled p.children = [] →
      (selectAllOption p s).selectValue = [])
    ∧ (selectAllOption p s).selectValueForMultiplePanel = s.selectValueForMultiplePanel
    ∧ (selectAllOption p s).popupVisible = s.popupVisible := by
  have hall : isSelectAll p s false
      = (getOptionFromChildren notDisabled p.children).all
          (fun opt => s.selectValue.any (fun sel => sel.key == opt.key)) := by
    simp [isSelectAll, find_isSome_eq_any]
  refine ⟨?_, ?_, ?_, ?_, ?_⟩
  · intro hy; simp [selectAllOption, hall, hy]
  · intro hy; simp [selectAllOption, hall, hy]
  · intro hy; simp [selectAllOption, hall, hy]
  · simp [selectAllOption]
  · simp [selectAllOption]

/-- Claim C9 witness: toggling select-all with only `a` selected picks the
whole non-disabled catalog. -/
theorem c9_witness :
    (getOptionFromChildren notDisabled wPropsMulti.children).all
        (fun opt => wState.selectValue.any (fun sel => sel.key == opt.key)) = false
    ∧ (selectAllOption wPropsMulti wState).selectValue
        = getOptionFromChildren notDisabled wPropsMulti.children :=
  ⟨by decide, (c9_select_all_toggle wPropsMulti wState rfl).2.1 (by decide)⟩

/-- Claim C10: with `filterInactiveOption` enabled, confirm stores the full
unfiltered selection in both `selectValue` and `selectValueForMultiplePanel`;
a selection whose key does not resolve against the non-disabled catalog
stays in both stored lists while being excluded from the `onChange`
payload. -/
theorem c10_confirm_state_unfiltered (p : SelectProps) (s : SelectState)
    (h : p.filterInactiveOption = true) :
    (handleConfirmSelect p s).1.selectValueForMultiplePanel = s.selectValue
    ∧ (handleConfirmSelect p s).1.selectValue = s.selectValue
    ∧ (handleConfirmSelect p s).2 =
        [Emit.visibleChange false,
         Emit.change (if p.labelInValue then
             ChangeValue.objs (resolvingSelections p s.selectValue)
           else ChangeValue.keys ((resolvingSelections p s.selectValue).map (·.key)))]
    ∧ ∀ item ∈ s.selectValue,
        (getOptionFromChildren notDisabled p.children).any
            (fun opt => opt.key == item.key) = false →
        item ∈ (handleConfirmSelect p s).1.selectValue
        ∧ item ∈ (handleConfirmSelect p s).1.selectValueForMultiplePanel
        ∧ item ∉ resolvingSelections p s.selectValue := by
  refine ⟨?_, ?_, ?_, ?_⟩
  · simp [handleConfirmSelect, changeVisibleState]
  · simp [handleConfirmSelect, changeVisibleState]
  · simp [handleConfirmSelect, changeVisibleState, h,
      confirm_filter_eq_resolvingSelections]
  · intro item hmem hstale
    refine ⟨?_, ?_, ?_⟩
    · simpa [handleConfirmSelect, changeVisibleState] using hmem
    · simpa [handleConfirmSelect, changeVisibleState] using hmem
    · intro hin
      have := (List.mem_filter.mp hin).2
      simp [hstale] at this

/-- Claim C10 witness: the stale entry `z` survives confirm in the stored
state but is dropped from the payload. -/
theorem c10_witness :
    wPropsFilterInactive.filterInactiveOption = true
    ∧ (handleConfirmSelect wPropsFilterInactive wStateStale).1.selectValueForMultiplePanel
        = wStateStale.selectValue
    ∧ (⟨"z", "z", none⟩ : SelectValue) ∈ (handleConfirmSelect wPropsFilterInactive wStateStale).1.selectValue
    ∧ (⟨"z", "z", none⟩ : SelectValue) ∉ resolvingSelections wPropsFilterInactive wStateStale.selectValue :=
  ⟨rfl, (c10_confirm_state_unfiltered wPropsFilterInactive wStateStale rfl).1,
    ((c10_confirm_state_unfiltered wPropsFilterInactive wStateStale rfl).2.2.2
      ⟨"z", "z", none⟩ (by decide) (by decide)).1,
    ((c10_confirm_state_unfiltered wPropsFilterInactive wStateStale rfl).2.2.2
      ⟨"z", "z", none⟩ (by decide) (by decide)).2.2⟩

/-- Claim C2 counterexample: in multiple mode with selection `[a, b]`,
clicking option `a` twice yields `[b, a]` — the first click removes `a` in
place, the second appends it at the end — so SelectionSet does not return to
exactly its prior value. -/
theorem c2_counterexample :
    (onOptionClick wPropsMulti
        ((onOptionClick wPropsMulti { wState with selectValue := [wOptA, wOptB] }
          wOptA false).1) wOptA false).1.selectValue
      ≠ [wOptA, wOptB] := by decide

/-- Claim C2 (amended): in multiple mode an option click toggles the clicked
key's membership in `selectValue` (appended at the end when absent, the first
matching entry removed in place when present), fires `onSelect` when adding
and `onDeselect` when removing, does not touch the popup or
`selectValueForMultiplePanel`; double-toggle restores the exact prior
sequence when the clicked key was initially absent (when present, the
toggled entry ends up moved to the end instead). -/
theorem c2_multiple_toggle (p : SelectProps) (s : SelectState) (obj : SelectValue)
    (h : p.mode = Mode.multiple) :
    (∀ i, s.selectValue.findIdx? (fun sel => sel.key == obj.key) = some i →
      onOptionClick p s obj false =
        ({ s with selectValue := s.selectValue.take i ++ s.selectValue.drop (i + 1) },
         [Emit.deselect obj]))
    ∧ (s.selectValue.findIdx? (fun sel => sel.key == obj.key) = none →
      onOptionClick p s obj false =
        ({ s with selectValue := s.selectValue ++ [obj] }, [Emit.select obj]))
    ∧ (s.selectValue.findIdx? (fun sel => sel.key == obj.key) = none →
      (onOptionClick p ((onOptionClick p s obj false).1) obj false).1.selectValue
        = s.selectValue) := by
  refine ⟨?_, ?_, ?_⟩
  · intro i hi
    simp [onOptionClick, h, hi]
  · intro hnone
    simp [onOptionClick, h, hnone]
  · intro hnone
    have h1 : (onOptionClick p s obj false).1 =
        { s with selectValue := s.selectValue ++ [obj] } := by
      simp [onOptionClick, h, hnone]
    rw [h1]
    have hkey : (obj.key == obj.key) = true := by simp
    have hidx : (s.selectValue ++ [obj]).findIdx? (fun sel => sel.key == obj.key)
        = some s.selectValue.length := by
      simp [List.findIdx?_append, hnone, List.findIdx?_cons, hkey]
    simp only [onOptionClick, h, hidx]
    simp [List.take_append_of_le_length (Nat.le_refl _), List.drop_append_of_le_length]

/-- Claim C2 witness: toggling `b` (absent) then re-toggling restores the
selection `[a]`. -/
theorem c2_witness :
    wState.selectValue.findIdx? (fun sel => sel.key == wOptB.key) = none
    ∧ (onOptionClick wPropsMulti wState wOptB false =
        ({ wState with selectValue := wState.selectValue ++ [wOptB] }, [Emit.select wOptB]))
    ∧ (onOptionClick wPropsMulti
        ((onOptionClick wPropsMulti wState wOptB false).1) wOptB false).1.selectValue
        = wState.selectValue :=
  ⟨by decide, (c2_multiple_toggle wPropsMulti wState wOptB rfl).2.1 (by decide),
    (c2_multiple_toggle wPropsMulti wState wOptB rfl).2.2 (by decide)⟩

/-- Claim C6: when Enter is pressed with an active key resolving to `chosen`
in the filtered non-disabled list and not already selected, single mode
commits `[chosen]`, closes the popup and fires `onChange`, while multiple
mode appends `chosen` silently (no `onSelect`/`onDeselect`, popup
untouched); when the active key is already selected, Enter changes nothing
and fires nothing. -/
theorem c6_enter_commit (p : SelectProps) (s : SelectState) (ak : String)
    (chosen : SelectValue)
    (hak : s.activeKey = some ak)
    (hfound : (filteredOptions p s).find? (fun opt => opt.key == ak) = some chosen) :
    (s.selectValue.find? (fun sel => sel.key == ak) = none →
      (p.mode = Mode.single →
        handleKeyboardEvent p s Key.enter =
          ({ s with selectValue := [chosen], popupVisible := false, activeKey := none },
           [Emit.visibleChange false,
            Emit.change (if p.labelInValue then ChangeValue.obj chosen
                         else ChangeValue.key chosen.key)]))
      ∧ (p.mode = Mode.multiple →
        handleKeyboardEvent p s Key.enter =
          ({ s with selectValue := s.selectValue ++ [chosen] }, [])))
    ∧ ((s.selectValue.find? (fun sel => sel.key == ak)).isSome →
      handleKeyboardEvent p s Key.enter = (s, [])) := by
  have hne : filteredOptions p s ≠ [] :=
    List.ne_nil_of_mem (List.mem_of_find?_eq_some hfound)
  refine ⟨fun hnotsel => ⟨fun hm => ?_, fun hm => ?_⟩, fun hsel => ?_⟩
  · simp [handleKeyboardEvent, hne, hak, hfound, hnotsel, hm, changeVisibleState]
  · simp [handleKeyboardEvent, hne, hak, hfound, hnotsel, hm]
  · simp [handleKeyboardEvent, hne, hak, hfound, hsel]

/-- Claim C6 witness: Enter on active key `b` with `a` selected, in single
and in multiple mode, and Enter on active key `a` which is already
selected. -/
theorem c6_witness :
    ({ wState with activeKey := some "b" } : SelectState).activeKey = some "b"
    ∧ (filteredOptions wPropsSingle { wState with activeKey := some "b" }).find?
        (fun opt => opt.key == "b") = some wOptB
    ∧ (handleKeyboardEvent wPropsSingle { wState with activeKey := some "b" } Key.enter =
        ({ wState with selectValue := [wOptB], popupVisible := false, activeKey := none },
         [Emit.visibleChange false,
          Emit.change (if wPropsSingle.labelInValue then ChangeValue.obj wOptB
                       else ChangeValue.key wOptB.key)]))
    ∧ (handleKeyboardEvent wPropsMulti { wState with activeKey := some "b" } Key.enter =
        ({ wState with selectValue := wState.selectValue ++ [wOptB], activeKey := some "b" }, []))
    ∧ (handleKeyboardEvent wPropsMulti { wState with activeKey := some "a" } Key.enter =
        ({ wState with activeKey := some "a" }, [])) :=
  ⟨rfl, by decide,
    by
      have := ((c6_enter_commit wPropsSingle { wState with activeKey := some "b" } "b" wOptB
        rfl (by decide)).1 (by decide)).1 rfl
      simpa using this,
    by
      have := ((c6_enter_commit wPropsMulti { wState with activeKey := some "b" } "b" wOptB
        rfl (by decide)).1 (by decide)).2 rfl
      simpa using this,
    by
      have := (c6_enter_commit wPropsMulti { wState with activeKey := some "a" } "a" wOptA
        rfl (by decide)).2 (by decide)
      simpa using this⟩

/-- Claim C7: value normalization treats scalars as one-element arrays in
both `labelInValue` branches, resolves keys against the full option catalog,
and degrades an unresolved key to an entry whose label is the raw key. -/
theorem c7_getValueFromProps_contract :
    (∀ (k : String) (ch : List SelNode),
      getValueFromPropsRaw (RawValue.prim k) ch = getValueFromPropsRaw (RawValue.arr [k]) ch)
    ∧ (∀ (o : ExtObj) (ch : List SelNode),
      getValueFromPropsLIV (LIVValue.obj o) ch = getValueFromPropsLIV (LIVValue.arr [o]) ch)
    ∧ (∀ (k : String) (ch : List SelNode),
      (getOptionFromChildren trueFilter ch).find? (fun opt => opt.key == k) = none →
      getValueFromPropsRaw (RawValue.prim k) ch = [⟨k, k, none⟩])
    ∧ (∀ (k : String) (ch : List SelNode) (opt : SelectValue),
      (getOptionFromChildren trueFilter ch).find? (fun o => o.key == k) = some opt →
      opt.label ≠ "" →
      getValueFromPropsRaw (RawValue.prim k) ch = [⟨k, opt.label, opt.title⟩]) := by
  refine ⟨fun k ch => rfl, fun o ch => rfl, fun k ch hnone => ?_, fun k ch opt hsome hlab => ?_⟩
  · simp [getValueFromPropsRaw, resolveRawKey, hnone, jsOrStr]
  · simp [getValueFromPropsRaw, resolveRawKey, hsome, jsOrStr, hlab]

/-- Claim C7 witness: the unresolved key `z` degrades to label `z`; the
resolved key `a` picks up the catalog label. -/
theorem c7_witness :
    ((getOptionFromChildren trueFilter wChildren).find? (fun opt => opt.key == "z") = none
      ∧ getValueFromPropsRaw (RawValue.prim "z") wChildren = [⟨"z", "z", none⟩])
    ∧ ((getOptionFromChildren trueFilter wChildren).find? (fun o => o.key == "a") = some wOptA
      ∧ getValueFromPropsRaw (RawValue.prim "a") wChildren = [⟨"a", wOptA.label, wOptA.title⟩]) :=
  ⟨⟨by decide, c7_getValueFromProps_contract.2.2.1 "z" wChildren (by decide)⟩,
    ⟨by decide, c7_getValueFromProps_contract.2.2.2 "a" wChildren wOptA (by decide) (by decide)⟩⟩

/-- Claim C5: over a non-empty filtered non-disabled option list, ArrowDown
moves the active key to the next option wrapping from last to first,
ArrowUp to the previous wrapping from first to last, and either arrow with
no active key activates the first option; on an empty filtered list Enter,
ArrowUp and ArrowDown change no state and fire nothing. -/
theorem c5_arrow_navigation (p : SelectProps) (s : SelectState) :
    (filteredOptions p s = [] →
      handleKeyboardEvent p s Key.enter = (s, [])
      ∧ handleKeyboardEvent p s Key.up = (s, [])
      ∧ handleKeyboardEvent p s Key.down = (s, []))
    ∧ (filteredOptions p s ≠ [] → s.activeKey = none →
      (handleKeyboardEvent p s Key.down).1.activeKey
        = (filteredOptions p s).head?.map (·.key)
      ∧ (handleKeyboardEvent p s Key.up).1.activeKey
        = (filteredOptions p s).head?.map (·.key))
    ∧ (∀ ak i, s.activeKey = some ak →
      (filteredOptions p s).findIdx? (fun opt => opt.key == ak) = some i →
      (handleKeyboardEvent p s Key.down).1.activeKey
        = ((filteredOptions p s)[(i + 1) % (filteredOptions p s).length]?).map (·.key)
      ∧ (handleKeyboardEvent p s Key.up).1.activeKey
        = ((filteredOptions p s)[(i + (filteredOptions p s).length - 1) %
            (filteredOptions p s).length]?).map (·.key)) := by
  refine ⟨fun hemp => ⟨?_, ?_, ?_⟩, fun hne hnone => ⟨?_, ?_⟩, fun ak i hak hidx => ?_⟩
  · simp [handleKeyboardEvent, hemp]
  · simp [handleKeyboardEvent, hemp]
  · simp [handleKeyboardEvent, hemp]
  · simp [handleKeyboardEvent, hne, hnone]
  · simp [handleKeyboardEvent, hne, hnone]
  · obtain ⟨hlt, -, -⟩ := List.findIdx?_eq_some_iff_getElem.mp hidx
    have hne : filteredOptions p s ≠ [] := by
      intro he
      rw [he] at hlt
      simp at hlt
    constructor
    · have harith : (i + 1) % (filteredOptions p s).length
          = if i + 1 = (filteredOptions p s).length then 0 else i + 1 := by
        split
        · rename_i hlen
          rw [hlen, Nat.mod_self]
        · exact Nat.mod_eq_of_lt (by omega)
      rw [harith]
      simp [handleKeyboardEvent, hne, hak, hidx]
    · have harith : (i + (filteredOptions p s).length - 1) % (filteredOptions p s).length
          = if i = 0 then (filteredOptions p s).length - 1 else i - 1 := by
        rcases Nat.eq_zero_or_pos i with h0 | hpos
        · rw [if_pos h0, h0, Nat.zero_add]
          exact Nat.mod_eq_of_lt (by omega)
        · rw [if_neg (by omega)]
          have heq : i + (filteredOptions p s).length - 1
              = (i - 1) + (filteredOptions p s).length := by omega
          rw [heq, Nat.add_mod_right]
          exact Nat.mod_eq_of_lt (by omega)
      rw [harith]
      simp [handleKeyboardEvent, hne, hak, hidx]

/-- A state with the last option `b` active (used by witnesses). -/
def wStateActB : SelectState := { wState with activeKey := some "b" }

/-- Claim C5 witness: with `b` (the last option) active, ArrowDown wraps to
index `(1+1) % 2 = 0` and ArrowUp moves to index `(1+2-1) % 2 = 0`. -/
theorem c5_witness :
    wStateActB.activeKey = some "b"
    ∧ (filteredOptions wPropsMulti wStateActB).findIdx?
        (fun opt => opt.key == "b") = some 1
    ∧ ((handleKeyboardEvent wPropsMulti wStateActB Key.down).1.activeKey
        = ((filteredOptions wPropsMulti wStateActB)[(1 + 1) %
            (filteredOptions wPropsMulti wStateActB).length]?).map (·.key)
      ∧ (handleKeyboardEvent wPropsMulti wStateActB Key.up).1.activeKey
        = ((filteredOptions wPropsMulti wStateActB)[(1 + (filteredOptions wPropsMulti wStateActB).length - 1) %
            (filteredOptions wPropsMulti wStateActB).length]?).map (·.key)) :=
  ⟨rfl, by decide,
    (c5_arrow_navigation wPropsMulti wStateActB).2.2 "b" 1 rfl (by decide)⟩

/-- Claim C8 counterexample: opening the popup in single mode with the stale
external value `z` (a visibility transition from the freshly constructed
component) leaves the active key at `z`, which no option of the filtered
non-disabled list carries. -/
theorem c8_counterexample :
    (changeVisibleState wPropsSingle
        (initState wPropsSingle (RawValue.prim "z") false) true).1.activeKey = some "z"
    ∧ ∀ opt ∈ filteredOptions wPropsSingle
        (changeVisibleState wPropsSingle
          (initState wPropsSingle (RawValue.prim "z") false) true).1,
        opt.key ≠ "z" := by decide

/-- Claim C8 (amended): keyboard transitions leave the active key absent,
unchanged, or pointing at a member of the currently filtered non-disabled
option list — in particular they never activate a disabled or filtered-out
option; search and visibility transitions, however, can leave a stale active
key (e.g. opening in single mode activates the selection's key even when it
is absent from the catalog). -/
theorem c8_keyboard_active_stays_listed (p : SelectProps) (s : SelectState) (k : Key) :
    (handleKeyboardEvent p s k).1.activeKey = none
    ∨ (handleKeyboardEvent p s k).1.activeKey = s.activeKey
    ∨ ∃ opt ∈ filteredOptions p s, (handleKeyboardEvent p s k).1.activeKey = some opt.key := by
  cases k
  case other => right; left; rfl
  case esc =>
    by_cases he : p.esc
    · left
      simp [handleKeyboardEvent, he, changeVisibleState]
    · right; left
      simp [handleKeyboardEvent, he]
  case enter =>
    by_cases hemp : filteredOptions p s = []
    · right; left
      simp [handleKeyboardEvent, hemp]
    · cases hak : s.activeKey with
      | none =>
        right; left
        simp [handleKeyboardEvent, hemp, hak]
      | some ak =>
        cases hfind : (filteredOptions p s).find? (fun opt => opt.key == ak) with
        | none =>
          right; left
          simp [handleKeyboardEvent, hemp, hak, hfind]
        | some chosen =>
          by_cases hsel : (s.selectValue.find? (fun sel => sel.key == ak)).isSome
          · right; left
            simp [handleKeyboardEvent, hemp, hak, hfind, hsel]
          · cases hm : p.mode with
            | single =>
              left
              simp [handleKeyboardEvent, hemp, hak, hfind, hsel, hm, changeVisibleState]
            | multiple =>
              right; left
              simp [handleKeyboardEvent, hemp, hak, hfind, hsel, hm]
  case up =>
    by_cases hemp : filteredOptions p s = []
    · right; left
      simp [handleKeyboardEvent, hemp]
    · cases hak : s.activeKey with
      | none =>
        right; right
        obtain ⟨x, xs, hcons⟩ := List.exists_cons_of_ne_nil hemp
        refine ⟨x, by simp [hcons], ?_⟩
        simp [handleKeyboardEvent, hemp, hak, hcons]
      | some ak =>
        cases hidx : (filteredOptions p s).findIdx? (fun opt => opt.key == ak) with
        | none =>
          right; right
          obtain ⟨x, xs, hcons⟩ := List.exists_cons_of_ne_nil hemp
          refine ⟨x, by simp [hcons], ?_⟩
          have h1 : (handleKeyboardEvent p s Key.up).1.activeKey
              = (filteredOptions p s).head?.map (·.key) := by
            simp [handleKeyboardEvent, hemp, hak, hidx]
          rw [h1, hcons]
          rfl
        | some i =>
          obtain ⟨hlt, -, -⟩ := List.findIdx?_eq_some_iff_getElem.mp hidx
          right; right
          by_cases hi : i = 0
          · refine ⟨(filteredOptions p s).get ⟨(filteredOptions p s).length - 1, by omega⟩,
              List.get_mem _ _ _, ?_⟩
            simp [handleKeyboardEvent, hemp, hak, hidx, hi, List.get_eq_getElem,
              List.getElem?_eq_getElem (show (filteredOptions p s).length - 1
                < (filteredOptions p s).length by omega)]
          · refine ⟨(filteredOptions p s).get ⟨i - 1, by omega⟩, List.get_mem _ _ _, ?_⟩
            simp [handleKeyboardEvent, hemp, hak, hidx, hi, List.get_eq_getElem,
              List.getElem?_eq_getElem (show i - 1 < (filteredOptions p s).length by omega)]
  case down =>
    by_cases hemp : filteredOptions p s = []
    · right; left
      simp [handleKeyboardEvent, hemp]
    · cases hak : s.activeKey with
      | none =>
        right; right
        obtain ⟨x, xs, hcons⟩ := List.exists_cons_of_ne_nil hemp
        refine ⟨x, by simp [hcons], ?_⟩
        simp [handleKeyboardEvent, hemp, hak, hcons]
      | some ak =>
        cases hidx : (filteredOptions p s).findIdx? (fun opt => opt.key == ak) with
        | none =>
          right; right
          obtain ⟨x, xs, hcons⟩ := List.exists_cons_of_ne_nil hemp
          refine ⟨x, by simp [hcons], ?_⟩
          have h1 : (handleKeyboardEvent p s Key.down).1.activeKey
              = (filteredOptions p s).head?.map (·.key) := by
            simp [handleKeyboardEvent, hemp, hak, hidx]
          rw [h1, hcons]
          rfl
        | some i =>
          obtain ⟨hlt, -, -⟩ := List.findIdx?_eq_some_iff_getElem.mp hidx
          right; right
          by_cases hi : i + 1 = (filteredOptions p s).length
          · refine ⟨(filteredOptions p s).get ⟨0, by omega⟩, List.get_mem _ _ _, ?_⟩
            simp [handleKeyboardEvent, hemp, hak, hidx, hi, List.get_eq_getElem,
              List.getElem?_eq_getElem (show 0 < (filteredOptions p s).length by omega)]
          · refine ⟨(filteredOptions p s).get ⟨i + 1, by omega⟩, List.get_mem _ _ _, ?_⟩
            simp [handleKeyboardEvent, hemp, hak, hidx, hi, List.get_eq_getElem,
              List.getElem?_eq_getElem (show i + 1 < (filteredOptions p s).length by omega)]

end PpfishSelect
